import Mathlib

/-
Verification of the video sampling and emotion-aggregation pipeline of
`src/app.py` (function `analyze_video_emotions` and the result-rendering
branch of `main`).

Modelling conventions:
* A frame image is abstracted as a `Nat` identifier; the classifier is a
  function from that identifier to its detection outcome.
* `cap.get(cv2.CAP_PROP_FPS)` is modelled after the `int(...)` truncation in
  line 51 of the source, so the reported rate is an `Int`.
* Confidence scores are modelled as rationals (`ℚ`); only their order matters
  to the code (Python `max`).
* Streamlit calls are modelled by their observable trace: `st.error` strings,
  the `frame_count` values passed to `st.warning`, and the sequence of
  `detector.detect_emotions` invocations.
-/

/-- An emotion label as produced by the external classifier. -/
abbrev Label := String

/-- One face record returned by `detector.detect_emotions`: the
`"emotions"` mapping, kept as an association list in the collaborator's
enumeration order. -/
structure FaceRecord where
  emotions : List (Label × ℚ)
deriving DecidableEq

/-- Outcome of one `detector.detect_emotions(frame)` call: an internal
failure (an exception raised by the collaborator) or a list of face records. -/
inductive DetectOutcome where
  | err : DetectOutcome
  | ok (faces : List FaceRecord) : DetectOutcome
deriving DecidableEq

/-- The external classifier: maps a frame image to its detection outcome. -/
abbrev Classifier := Nat → DetectOutcome

/-- One `cap.read()` result while the source still yields data: either a
decoded frame, or an unexpected exception raised by the read (the step list
ends where `ret` becomes `False`). -/
inductive ReadStep where
  | frame (img : Nat) : ReadStep
  | raiseRead : ReadStep
deriving DecidableEq

/-- A video source as seen through `cv2.VideoCapture`: whether it opened,
the frame rate reported by `cap.get(cv2.CAP_PROP_FPS)` after the `int(...)`
truncation of line 51, and the sequence of read results. -/
structure VideoSource where
  opened : Bool
  fps : Int
  steps : List ReadStep

/-- Lines 51-57 of `analyze_video_emotions`: substitute 30 when the reported
rate is ≤ 0, then `frame_interval = max(1, frame_rate * 2)`. -/
def sampleInterval (reported : Int) : Nat :=
  let frame_rate : Int := if reported ≤ 0 then 30 else reported
  (max 1 (frame_rate * 2)).toNat

/-- Loop of Python `max(d, key=d.get)`: `bk`/`bv` are the best key and value
so far; a later entry replaces them only when strictly greater, so the first
entry attaining the maximum wins. -/
def pyMaxGo {β : Type} [LinearOrder β] (bk : Label) (bv : β) :
    List (Label × β) → Label
  | [] => bk
  | (k, v) :: rest => if bv < v then pyMaxGo k v rest else pyMaxGo bk bv rest

/-- Python `max(d, key=d.get)` over an association list in enumeration order:
the first key attaining the maximum value; `none` on the empty dict, where
Python raises `ValueError` instead. -/
def pyMax {β : Type} [LinearOrder β] : List (Label × β) → Option Label
  | [] => none
  | (k, v) :: rest => some (pyMaxGo k v rest)

/-- Observable trace of one scan of the while-loop: labels appended to the
`emotions` list (in order), the `frame_count` values passed to `st.warning`,
the `detect_emotions` call trace as (position in the source, image) pairs,
and whether an unexpected exception escaped the loop to the outer handler. -/
structure ScanOut where
  labels : List Label
  warnings : List Nat
  analyzed : List (Nat × Nat)
  fatal : Bool
deriving DecidableEq

/-- The while-loop of `analyze_video_emotions` (lines 65-86). `pos` is the
index of the next read step in the original source (the true frame index,
kept for the trace); `fc` is the Python variable `frame_count`.  Note that
the `except` branch (lines 78-80) ends in `continue`, which jumps past the
`frame_count += 1` of line 82; `Python max` on an empty emotions dict also
raises into that branch. -/
def scanLoop (detect : Classifier) (interval : Nat) :
    List ReadStep → Nat → Nat → ScanOut → ScanOut
  | [], _, _, acc => acc
  | ReadStep.raiseRead :: _, _, _, acc => { acc with fatal := true }
  | ReadStep.frame img :: rest, pos, fc, acc =>
    if fc % interval = 0 then
      match detect img with
      | DetectOutcome.err =>
          scanLoop detect interval rest (pos + 1) fc
            { acc with warnings := acc.warnings ++ [fc],
                       analyzed := acc.analyzed ++ [(pos, img)] }
      | DetectOutcome.ok [] =>
          scanLoop detect interval rest (pos + 1) (fc + 1)
            { acc with analyzed := acc.analyzed ++ [(pos, img)] }
      | DetectOutcome.ok (f :: _) =>
          match pyMax f.emotions with
          | none =>
              scanLoop detect interval rest (pos + 1) fc
                { acc with warnings := acc.warnings ++ [fc],
                           analyzed := acc.analyzed ++ [(pos, img)] }
          | some top =>
              scanLoop detect interval rest (pos + 1) (fc + 1)
                { acc with labels := acc.labels ++ [top],
                           analyzed := acc.analyzed ++ [(pos, img)] }
    else
      scanLoop detect interval rest (pos + 1) (fc + 1) acc

/-- Keys of a list in order of first occurrence. -/
def firstOccur : List Label → List Label
  | [] => []
  | x :: xs => x :: (firstOccur xs).filter (fun y => y ≠ x)

/-- Insertion step of the descending-by-count sort used to model
`value_counts`: a new entry moves left past strictly smaller counts only, so
the sort is stable. -/
def insertDesc (x : Label × Nat) : List (Label × Nat) → List (Label × Nat)
  | [] => [x]
  | y :: ys => if x.2 < y.2 then y :: insertDesc x ys else x :: y :: ys

/-- `pd.Series(emotions).value_counts().to_dict()` (line 92): one entry per
distinct label with its occurrence count, ordered by count descending; among
equal counts the first-occurrence order of the labels is kept. -/
def value_counts (l : List Label) : List (Label × Nat) :=
  ((firstOccur l).map fun k => (k, l.count k)).foldr insertDesc []

/-- Observable outcome of `analyze_video_emotions`: the returned dict (as the
ordered list produced by `value_counts`), the `st.error` messages, the
`st.warning` frame numbers, the `detect_emotions` call trace, whether
`cap.release()` ran before returning, and whether `cv2.VideoCapture` was
constructed at all. -/
structure RunResult where
  tally : List (Label × Nat)
  errors : List String
  warnings : List Nat
  analyzed : List (Nat × Nat)
  released : Bool
  openAttempted : Bool
  fatal : Bool
deriving DecidableEq

/-- `analyze_video_emotions(video_path, detector)` (lines 37-97).  A `none`
detector returns the empty dict before the capture is constructed (lines
39-40); a source that does not open reports `st.error` and returns the empty
dict without a release (lines 46-48); an exception escaping the scan loop is
caught by the outer handler (lines 94-97), which reports `st.error` and
returns the empty dict, also without reaching `cap.release()` (line 88). -/
def analyze_video_emotions (detector : Option Classifier)
    (src : VideoSource) : RunResult :=
  match detector with
  | none =>
      { tally := [], errors := [], warnings := [], analyzed := [],
        released := false, openAttempted := false, fatal := false }
  | some detect =>
      if src.opened then
        let frame_interval := sampleInterval src.fps
        let out := scanLoop detect frame_interval src.steps 0 0 ⟨[], [], [], false⟩
        if out.fatal then
          { tally := [], errors := ["Error during video analysis"],
            warnings := out.warnings, analyzed := out.analyzed,
            released := false, openAttempted := true, fatal := true }
        else
          { tally := if out.labels.isEmpty then [] else value_counts out.labels,
            errors := [], warnings := out.warnings, analyzed := out.analyzed,
            released := true, openAttempted := true, fatal := false }
      else
        { tally := [], errors := ["Could not open video file"],
          warnings := [], analyzed := [], released := false,
          openAttempted := true, fatal := false }

/-- The caller-visible report produced by `main` (lines 141-166). -/
inductive Report where
  | success (dominant : Label) : Report
  | noEmotions : Report
deriving DecidableEq

/-- Lines 141-166 of `main`: a truthy (non-empty) dict takes the success path
and computes `dominant_emotion = max(video_emotions, key=video_emotions.get)`
(line 162); an empty dict takes the "No faces or emotions detected" warning
branch (line 166). -/
def renderResult (tally : List (Label × Nat)) : Report :=
  match pyMax tally with
  | some d => Report.success d
  | none => Report.noEmotions

/- Concrete inputs used for witnesses and counterexamples. -/

/-- A source of `n` decodable frames, frame `i` carrying image id `i`. -/
def mkFrames (n : Nat) : List ReadStep := (List.range n).map ReadStep.frame

/-- A single-face record that scores `happy` highest. -/
def happyFace : FaceRecord := ⟨[("happy", 1), ("sad", 0)]⟩

/-- Classifier that always finds one happy face. -/
def clsHappy : Classifier := fun _ => DetectOutcome.ok [happyFace]

/-- Classifier that never detects a face. -/
def clsNoFace : Classifier := fun _ => DetectOutcome.ok []

/-- Classifier that raises an internal error on frame image 60 only. -/
def clsErrAt60 : Classifier := fun img =>
  if img = 60 then DetectOutcome.err else DetectOutcome.ok [happyFace]

/-- A 10-second video at 30 fps: 300 decodable frames. -/
def src300 : VideoSource := ⟨true, 30, mkFrames 300⟩

/-- A source that fails to open. -/
def srcBad : VideoSource := ⟨false, 30, []⟩

/-- A short readable source. -/
def srcShort : VideoSource := ⟨true, 30, mkFrames 3⟩

/-- An opened source whose second read raises an unexpected exception. -/
def srcFatal : VideoSource := ⟨true, 30, [ReadStep.frame 0, ReadStep.raiseRead]⟩

/-- The classifier call at every image runs the body of the per-frame try
block to completion: no internal error, and any detected first face carries a
non-empty emotions dict (Python `max` on an empty dict raises). -/
def NeverRaises (d : Classifier) : Prop :=
  ∀ img, d img ≠ DetectOutcome.err ∧
    ∀ f fs, d img = DetectOutcome.ok (f :: fs) → f.emotions ≠ []

/-- Whether a detection outcome yielded at least one face record. -/
def faceYield : DetectOutcome → Bool
  | DetectOutcome.ok (_ :: _) => true
  | _ => false

/-- A first face with tied top scores, to exhibit the tie break. -/
def faceTie : FaceRecord := ⟨[("happy", 0), ("sad", 1), ("angry", 1)]⟩

/-- A second face in the same frame, scoring a different label. -/
def faceOther : FaceRecord := ⟨[("neutral", 1)]⟩

/-- Classifier returning two face records on every frame. -/
def clsTwoFaces : Classifier := fun _ => DetectOutcome.ok [faceTie, faceOther]

set_option maxRecDepth 10000

/-- Invariant of the Python `max` loop: either no later entry strictly beats
the running best (which is then returned), or the result is the first entry
strictly above the running best that no later entry strictly beats. -/
theorem pyMaxGo_spec {β : Type} [LinearOrder β] (l : List (Label × β)) :
    ∀ (bk : Label) (bv : β),
      (pyMaxGo bk bv l = bk ∧ ∀ p ∈ l, p.2 ≤ bv) ∨
      (∃ pre t v post, l = pre ++ (t, v) :: post ∧ pyMaxGo bk bv l = t ∧
        bv < v ∧ (∀ p ∈ pre, p.2 < v) ∧ (∀ p ∈ l, p.2 ≤ v)) := by
  induction l with
  | nil =>
    intro bk bv
    exact Or.inl ⟨rfl, by simp⟩
  | cons hd rest ih =>
    intro bk bv
    obtain ⟨k, w⟩ := hd
    by_cases hlt : bv < w
    · rcases ih k w with ⟨heq, hle⟩ | ⟨pre, t, v, post, hsplit, heq, hv, hpre, hall⟩
      · refine Or.inr ⟨[], k, w, rest, by simp, ?_, hlt, by simp, ?_⟩
        · simp [pyMaxGo, if_pos hlt, heq]
        · intro p hp
          rcases List.mem_cons.mp hp with h | h
          · rw [h]
          · exact hle p h
      · refine Or.inr ⟨(k, w) :: pre, t, v, post, by rw [hsplit]; rfl, ?_,
          lt_trans hlt hv, ?_, ?_⟩
        · simp [pyMaxGo, if_pos hlt, heq]
        · intro p hp
          rcases List.mem_cons.mp hp with h | h
          · rw [h]; exact hv
          · exact hpre p h
        · intro p hp
          rcases List.mem_cons.mp hp with h | h
          · rw [h]; exact le_of_lt hv
          · exact hall p h
    · rcases ih bk bv with ⟨heq, hle⟩ | ⟨pre, t, v, post, hsplit, heq, hv, hpre, hall⟩
      · refine Or.inl ⟨?_, ?_⟩
        · simp [pyMaxGo, if_neg hlt, heq]
        · intro p hp
          rcases List.mem_cons.mp hp with h | h
          · rw [h]; exact le_of_not_lt hlt
          · exact hle p h
      · refine Or.inr ⟨(k, w) :: pre, t, v, post, by rw [hsplit]; rfl, ?_, hv, ?_, ?_⟩
        · simp [pyMaxGo, if_neg hlt, heq]
        · intro p hp
          rcases List.mem_cons.mp hp with h | h
          · rw [h]; exact lt_of_le_of_lt (le_of_not_lt hlt) hv
          · exact hpre p h
        · intro p hp
          rcases List.mem_cons.mp hp with h | h
          · rw [h]; exact le_of_lt (lt_of_le_of_lt (le_of_not_lt hlt) hv)
          · exact hall p h

/-- Python `max(d, key=d.get)` on a non-empty dict returns the first entry
attaining the maximum value: everything before it is strictly smaller, and
nothing in the dict is larger. -/
theorem pyMax_firstMax {β : Type} [LinearOrder β] {l : List (Label × β)}
    (h : l ≠ []) :
    ∃ top v pre post, pyMax l = some top ∧ l = pre ++ (top, v) :: post ∧
      (∀ p ∈ pre, p.2 < v) ∧ (∀ p ∈ l, p.2 ≤ v) := by
  match l, h with
  | (k, w) :: rest, _ =>
    rcases pyMaxGo_spec rest k w with ⟨heq, hle⟩ |
      ⟨pre, t, v, post, hsplit, heq, hv, hpre, hall⟩
    · refine ⟨k, w, [], rest, by simp [pyMax, heq], by simp, by simp, ?_⟩
      intro p hp
      rcases List.mem_cons.mp hp with hh | hh
      · rw [hh]
      · exact hle p hh
    · refine ⟨t, v, (k, w) :: pre, post, by simp [pyMax, heq], by rw [hsplit]; rfl, ?_, ?_⟩
      · intro p hp
        rcases List.mem_cons.mp hp with hh | hh
        · rw [hh]; exact hv
        · exact hpre p hh
      · intro p hp
        rcases List.mem_cons.mp hp with hh | hh
        · rw [hh]; exact le_of_lt hv
        · exact hall p hh

/-- On a non-empty dict Python `max` returns a key rather than raising. -/
theorem pyMax_ne_nil {β : Type} [LinearOrder β] {l : List (Label × β)}
    (h : l ≠ []) : ∃ top, pyMax l = some top := by
  match l, h with
  | (k, v) :: rest, _ => exact ⟨_, rfl⟩

/-- Step equation: sampled frame, classifier raises — warning recorded and,
because of the `continue`, `frame_count` is not incremented. -/
theorem scanLoop_step_err (d : Classifier) (interval img pos fc : Nat)
    (rest : List ReadStep) (acc : ScanOut)
    (hs : fc % interval = 0) (hd : d img = DetectOutcome.err) :
    scanLoop d interval (ReadStep.frame img :: rest) pos fc acc =
      scanLoop d interval rest (pos + 1) fc
        { acc with warnings := acc.warnings ++ [fc],
                   analyzed := acc.analyzed ++ [(pos, img)] } := by
  simp [scanLoop, hs, hd]

/-- Step equation: sampled frame, no face detected — nothing tallied. -/
theorem scanLoop_step_noFace (d : Classifier) (interval img pos fc : Nat)
    (rest : List ReadStep) (acc : ScanOut)
    (hs : fc % interval = 0) (hd : d img = DetectOutcome.ok []) :
    scanLoop d interval (ReadStep.frame img :: rest) pos fc acc =
      scanLoop d interval rest (pos + 1) (fc + 1)
        { acc with analyzed := acc.analyzed ++ [(pos, img)] } := by
  simp [scanLoop, hs, hd]

/-- Step equation: sampled frame with a detected first face whose dict is
non-empty — exactly the first face's Python-max label is appended; the
remaining face records of the frame do not appear in the continuation. -/
theorem scanLoop_step_face (d : Classifier) (interval img pos fc : Nat)
    (rest : List ReadStep) (acc : ScanOut) (f : FaceRecord)
    (fs : List FaceRecord) (top : Label)
    (hs : fc % interval = 0) (hd : d img = DetectOutcome.ok (f :: fs))
    (htop : pyMax f.emotions = some top) :
    scanLoop d interval (ReadStep.frame img :: rest) pos fc acc =
      scanLoop d interval rest (pos + 1) (fc + 1)
        { acc with labels := acc.labels ++ [top],
                   analyzed := acc.analyzed ++ [(pos, img)] } := by
  simp [scanLoop, hs, hd, htop]

/-- Step equation: frame whose `frame_count` is off the sampling grid. -/
theorem scanLoop_step_skip (d : Classifier) (interval img pos fc : Nat)
    (rest : List ReadStep) (acc : ScanOut) (hs : ¬ fc % interval = 0) :
    scanLoop d interval (ReadStep.frame img :: rest) pos fc acc =
      scanLoop d interval rest (pos + 1) (fc + 1) acc := by
  simp [scanLoop, hs]

/-- Filtering the sampling-grid predicate through a cons, positive case. -/
theorem filter_grid_pos (interval pos : Nat) (L : List Nat)
    (hs : pos % interval = 0) :
    (pos :: L).filter (fun i => i % interval == 0) =
      pos :: L.filter (fun i => i % interval == 0) := by
  simp [List.filter_cons, hs]

/-- Filtering the sampling-grid predicate through a cons, negative case. -/
theorem filter_grid_neg (interval pos : Nat) (L : List Nat)
    (hs : ¬ pos % interval = 0) :
    (pos :: L).filter (fun i => i % interval == 0) =
      L.filter (fun i => i % interval == 0) := by
  simp [List.filter_cons, hs]

/-- Shift of `List.range` by one position, used to peel one frame off the
sampling grid. -/
theorem rangeShift (n pos : Nat) :
    (List.range (n + 1)).map (fun j => pos + j) =
      pos :: (List.range n).map (fun j => (pos + 1) + j) := by
  rw [List.range_succ_eq_map, List.map_cons, List.map_map]
  refine congrArg₂ List.cons (by omega) ?_
  congr 1
  funext j
  simp [Function.comp]
  omega

/-- Sampler characterization of the scan loop: when the classifier never
raises inside the per-frame try block, `frame_count` stays equal to the true
frame position, and the frames handed to the classifier are exactly those
whose index is a multiple of the interval, in ascending order. -/
theorem scanLoop_analyzed_noRaise (d : Classifier) (interval : Nat)
    (hnr : NeverRaises d) :
    ∀ (steps : List ReadStep) (pos : Nat) (acc : ScanOut),
      (∀ s ∈ steps, ∃ i, s = ReadStep.frame i) →
      (scanLoop d interval steps pos pos acc).analyzed.map Prod.fst =
        acc.analyzed.map Prod.fst ++
          ((List.range steps.length).map (fun j => pos + j)).filter
            (fun i => i % interval == 0) := by
  intro steps
  induction steps with
  | nil =>
    intro pos acc hf
    simp [scanLoop]
  | cons s rest ih =>
    intro pos acc hf
    obtain ⟨img, rfl⟩ := hf s (by simp)
    have hrest : ∀ t ∈ rest, ∃ i, t = ReadStep.frame i :=
      fun t ht => hf t (List.mem_cons_of_mem _ ht)
    rw [List.length_cons, rangeShift rest.length pos]
    by_cases hs : pos % interval = 0
    · rw [filter_grid_pos interval pos _ hs]
      rcases hd : d img with _ | faces
      · exact absurd hd (hnr img).1
      · cases faces with
        | nil =>
          rw [scanLoop_step_noFace d interval img pos pos rest acc hs hd,
            ih (pos + 1) _ hrest]
          simp [List.append_assoc]
        | cons f fs =>
          obtain ⟨top, htop⟩ := pyMax_ne_nil ((hnr img).2 f fs hd)
          rw [scanLoop_step_face d interval img pos pos rest acc f fs top hs hd htop,
            ih (pos + 1) _ hrest]
          simp [List.append_assoc]
    · rw [filter_grid_neg interval pos _ hs,
        scanLoop_step_skip d interval img pos pos rest acc hs]
      exact ih (pos + 1) acc hrest

/-- When the classifier never finds a face, the scan loop appends no label
and completes without a fatal error. -/
theorem scanLoop_noFace (d : Classifier) (interval : Nat)
    (hnf : ∀ img, d img = DetectOutcome.ok []) :
    ∀ (steps : List ReadStep) (pos fc : Nat) (acc : ScanOut),
      (∀ s ∈ steps, ∃ i, s = ReadStep.frame i) →
      (scanLoop d interval steps pos fc acc).labels = acc.labels ∧
      (scanLoop d interval steps pos fc acc).fatal = acc.fatal := by
  intro steps
  induction steps with
  | nil =>
    intro pos fc acc hf
    exact ⟨rfl, rfl⟩
  | cons s rest ih =>
    intro pos fc acc hf
    obtain ⟨img, rfl⟩ := hf s (by simp)
    have hrest : ∀ t ∈ rest, ∃ i, t = ReadStep.frame i :=
      fun t ht => hf t (List.mem_cons_of_mem _ ht)
    by_cases hs : fc % interval = 0
    · rw [scanLoop_step_noFace d interval img pos fc rest acc hs (hnf img)]
      exact ih (pos + 1) (fc + 1) _ hrest
    · rw [scanLoop_step_skip d interval img pos fc rest acc hs]
      exact ih (pos + 1) (fc + 1) acc hrest

/-- Counting invariant of the scan loop: one label is appended per classified
frame whose outcome yields at least one face record, provided a detected
first face always carries a non-empty emotions dict. -/
theorem scanLoop_count (d : Classifier) (interval : Nat)
    (hwf : ∀ img f fs, d img = DetectOutcome.ok (f :: fs) → f.emotions ≠ []) :
    ∀ (steps : List ReadStep) (pos fc : Nat) (acc : ScanOut),
      (scanLoop d interval steps pos fc acc).labels.length +
        (acc.analyzed.filter (fun pi => faceYield (d pi.2))).length =
      ((scanLoop d interval steps pos fc acc).analyzed.filter
        (fun pi => faceYield (d pi.2))).length + acc.labels.length := by
  intro steps
  induction steps with
  | nil =>
    intro pos fc acc
    simp [scanLoop]
    omega
  | cons s rest ih =>
    intro pos fc acc
    cases s with
    | raiseRead =>
      simp [scanLoop]
      omega
    | frame img =>
      by_cases hs : fc % interval = 0
      · rcases hd : d img with _ | faces
        · have hy : faceYield (d img) = false := by rw [hd]; rfl
          rw [scanLoop_step_err d interval img pos fc rest acc hs hd]
          have := ih (pos + 1) fc
            { acc with warnings := acc.warnings ++ [fc],
                       analyzed := acc.analyzed ++ [(pos, img)] }
          simp only [List.filter_append, List.length_append] at this ⊢
          simp [hy] at this
          omega
        · cases faces with
          | nil =>
            have hy : faceYield (d img) = false := by rw [hd]; rfl
            rw [scanLoop_step_noFace d interval img pos fc rest acc hs hd]
            have := ih (pos + 1) (fc + 1)
              { acc with analyzed := acc.analyzed ++ [(pos, img)] }
            simp only [List.filter_append, List.length_append] at this ⊢
            simp [hy] at this
            omega
          | cons f fs =>
            obtain ⟨top, htop⟩ := pyMax_ne_nil (hwf img f fs hd)
            have hy : faceYield (d img) = true := by rw [hd]; rfl
            rw [scanLoop_step_face d interval img pos fc rest acc f fs top hs hd htop]
            have := ih (pos + 1) (fc + 1)
              { acc with labels := acc.labels ++ [top],
                         analyzed := acc.analyzed ++ [(pos, img)] }
            simp only [List.filter_append, List.length_append] at this ⊢
            simp [hy] at this
            omega
      · rw [scanLoop_step_skip d interval img pos fc rest acc hs]
        exact ih (pos + 1) (fc + 1) acc

/-- Membership in the first-occurrence key list. -/
theorem firstOccur_mem (y : Label) : ∀ l : List Label,
    y ∈ firstOccur l ↔ y ∈ l := by
  intro l
  induction l with
  | nil => simp [firstOccur]
  | cons x xs ih =>
    by_cases h : y = x
    · subst h
      simp [firstOccur]
    · simp [firstOccur, List.mem_filter, ih, h]

/-- The first-occurrence key list has no duplicates. -/
theorem firstOccur_nodup : ∀ l : List Label, (firstOccur l).Nodup := by
  intro l
  induction l with
  | nil => simp [firstOccur]
  | cons x xs ih =>
    refine List.Nodup.cons ?_ (List.Nodup.filter _ ih)
    intro hx
    rcases List.mem_filter.mp hx with ⟨_, hne⟩
    simp at hne

/-- One stable descending insertion permutes to a cons. -/
theorem insertDesc_perm (x : Label × Nat) :
    ∀ l : List (Label × Nat), List.Perm (insertDesc x l) (x :: l) := by
  intro l
  induction l with
  | nil => rfl
  | cons y ys ih =>
    by_cases h : x.2 < y.2
    · have h1 : insertDesc x (y :: ys) = y :: insertDesc x ys := by
        simp [insertDesc, h]
      rw [h1]
      exact List.Perm.trans (List.Perm.cons y ih) (List.Perm.swap x y ys)
    · have h1 : insertDesc x (y :: ys) = x :: y :: ys := by
        simp [insertDesc, h]
      rw [h1]

/-- The descending insertion sort permutes its input. -/
theorem foldr_insertDesc_perm : ∀ m : List (Label × Nat),
    List.Perm (m.foldr insertDesc []) m := by
  intro m
  induction m with
  | nil => rfl
  | cons x ms ih =>
    have h1 : (x :: ms).foldr insertDesc [] = insertDesc x (ms.foldr insertDesc []) := rfl
    rw [h1]
    exact List.Perm.trans (insertDesc_perm x _) (List.Perm.cons x ih)

/-- `value_counts` is a permutation of the unsorted per-key count list. -/
theorem value_counts_perm (l : List Label) :
    List.Perm (value_counts l) ((firstOccur l).map fun k => (k, l.count k)) :=
  foldr_insertDesc_perm _

/-- The keys of a `value_counts` dict are unique. -/
theorem value_counts_keys_nodup (l : List Label) :
    ((value_counts l).map Prod.fst).Nodup := by
  have hperm : List.Perm ((value_counts l).map Prod.fst)
      (((firstOccur l).map fun k => (k, l.count k)).map Prod.fst) :=
    (value_counts_perm l).map Prod.fst
  refine (List.Perm.nodup_iff hperm).mpr ?_
  rw [List.map_map]
  have h1 : (Prod.fst ∘ fun k => (k, l.count k)) = id := by
    funext k
    rfl
  rw [h1, List.map_id]
  exact firstOccur_nodup l

/-- The counts in a `value_counts` dict sum to the length of the input:
every occurrence of every label is counted exactly once. -/
theorem value_counts_sum (l : List Label) :
    ((value_counts l).map Prod.snd).sum = l.length := by
  have h1 : ((value_counts l).map Prod.snd).sum =
      (((firstOccur l).map fun k => (k, l.count k)).map Prod.snd).sum :=
    ((value_counts_perm l).map Prod.snd).sum_eq
  rw [h1, List.map_map]
  have h2 : (Prod.snd ∘ fun k => (k, l.count k)) = fun k => l.count k := by
    funext k
    rfl
  rw [h2]
  have h3 : List.Perm (firstOccur l) l.dedup := by
    refine (List.perm_ext_iff_of_nodup (firstOccur_nodup l) l.nodup_dedup).mpr ?_
    intro a
    rw [firstOccur_mem, List.mem_dedup]
  have h4 := (h3.map fun k => l.count k).sum_eq
  rw [h4]
  exact List.sum_map_count_dedup_eq_length l

/-- Every entry of `value_counts l` pairs a label of `l` with its exact
occurrence count, and every label of `l` appears. -/
theorem value_counts_mem (l : List Label) (p : Label × Nat) :
    p ∈ value_counts l ↔ p.1 ∈ l ∧ p.2 = l.count p.1 := by
  rw [(value_counts_perm l).mem_iff, List.mem_map]
  constructor
  · rintro ⟨k, hk, hkp⟩
    rw [← hkp]
    exact ⟨(firstOccur_mem k l).mp hk, rfl⟩
  · rintro ⟨h1, h2⟩
    exact ⟨p.1, (firstOccur_mem p.1 l).mpr h1, by rw [← h2]⟩

/-- Branch equation: the source does not open (lines 46-48) — `st.error` is
reported, the empty dict is returned, and no frame is ever read. -/
theorem analyze_not_opened (d : Classifier) (src : VideoSource)
    (hop : src.opened = false) :
    analyze_video_emotions (some d) src =
      { tally := [], errors := ["Could not open video file"], warnings := [],
        analyzed := [], released := false, openAttempted := true,
        fatal := false } := by
  simp [analyze_video_emotions, hop]

/-- Branch equation: scan completed without a fatal error (lines 88-92). -/
theorem analyze_completed (d : Classifier) (src : VideoSource)
    (hop : src.opened = true)
    (hft : (scanLoop d (sampleInterval src.fps) src.steps 0 0
      ⟨[], [], [], false⟩).fatal = false) :
    analyze_video_emotions (some d) src =
      { tally := if (scanLoop d (sampleInterval src.fps) src.steps 0 0
            ⟨[], [], [], false⟩).labels.isEmpty then []
          else value_counts (scanLoop d (sampleInterval src.fps) src.steps 0 0
            ⟨[], [], [], false⟩).labels,
        errors := [],
        warnings := (scanLoop d (sampleInterval src.fps) src.steps 0 0
          ⟨[], [], [], false⟩).warnings,
        analyzed := (scanLoop d (sampleInterval src.fps) src.steps 0 0
          ⟨[], [], [], false⟩).analyzed,
        released := true, openAttempted := true, fatal := false } := by
  simp [analyze_video_emotions, hop, hft]

/-- Branch equation: an unexpected exception escaped the scan loop
(lines 94-97) — the outer handler returns the empty dict and `cap.release()`
on line 88 is never reached. -/
theorem analyze_fatal (d : Classifier) (src : VideoSource)
    (hop : src.opened = true)
    (hft : (scanLoop d (sampleInterval src.fps) src.steps 0 0
      ⟨[], [], [], false⟩).fatal = true) :
    analyze_video_emotions (some d) src =
      { tally := [], errors := ["Error during video analysis"],
        warnings := (scanLoop d (sampleInterval src.fps) src.steps 0 0
          ⟨[], [], [], false⟩).warnings,
        analyzed := (scanLoop d (sampleInterval src.fps) src.steps 0 0
          ⟨[], [], [], false⟩).analyzed,
        released := false, openAttempted := true, fatal := true } := by
  simp [analyze_video_emotions, hop, hft]

/-- The `detect_emotions` call trace of an opened run is the scan trace,
whether or not the scan ended fatally. -/
theorem analyze_analyzed_eq (d : Classifier) (src : VideoSource)
    (hop : src.opened = true) :
    (analyze_video_emotions (some d) src).analyzed =
      (scanLoop d (sampleInterval src.fps) src.steps 0 0
        ⟨[], [], [], false⟩).analyzed := by
  by_cases hft : (scanLoop d (sampleInterval src.fps) src.steps 0 0
    ⟨[], [], [], false⟩).fatal
  · rw [analyze_fatal d src hop hft]
  · rw [analyze_completed d src hop (by simpa using hft)]

/-- Every read step of `mkFrames n` is a decodable frame. -/
theorem mkFrames_frames (n : Nat) :
    ∀ s ∈ mkFrames n, ∃ i, s = ReadStep.frame i := by
  intro s hs
  rcases List.mem_map.mp hs with ⟨i, _, rfl⟩
  exact ⟨i, rfl⟩

/-- The always-happy classifier never raises in the per-frame try block. -/
theorem clsHappy_neverRaises : NeverRaises clsHappy := by
  intro img
  refine ⟨by simp [clsHappy], ?_⟩
  intro f fs h
  simp only [clsHappy, DetectOutcome.ok.injEq, List.cons.injEq] at h
  rw [← h.1]
  simp [happyFace]

/-- C1: for every readable video source whose reads all decode, and any
classifier that never raises inside the per-frame try block, the frames
handed to the classifier are exactly those whose index is a multiple of
`sampleInterval`, in ascending order, terminating when the source is
exhausted. -/
theorem C1_frame_sampler_grid (d : Classifier) (src : VideoSource)
    (hop : src.opened = true)
    (hfr : ∀ s ∈ src.steps, ∃ i, s = ReadStep.frame i)
    (hnr : NeverRaises d) :
    (analyze_video_emotions (some d) src).analyzed.map Prod.fst =
      (List.range src.steps.length).filter
        (fun i => i % sampleInterval src.fps == 0) := by
  rw [analyze_analyzed_eq d src hop]
  have hscan := scanLoop_analyzed_noRaise d (sampleInterval src.fps) hnr src.steps 0
    ⟨[], [], [], false⟩ hfr
  have hid : (List.range src.steps.length).map (fun j => 0 + j) =
      List.range src.steps.length := by
    simp
  rw [hid] at hscan
  simpa using hscan

/-- Witness for C1 at the spec's Scenario-B instance: a 10-second video at
30 fps (300 frames, interval 60) samples exactly frames 0, 60, 120, 180,
240 — five samples. -/
theorem C1_frame_sampler_grid_witness :
    (analyze_video_emotions (some clsHappy) src300).analyzed.map Prod.fst =
      [0, 60, 120, 180, 240] := by
  rw [C1_frame_sampler_grid clsHappy src300 rfl (mkFrames_frames 300)
    clsHappy_neverRaises]
  decide

/-- C2: for every reported frame rate, the sampling interval is
`max(1, frame_rate * 2)` when the rate is positive, and falls back to an
effective rate of 30 (interval 60) when the reported rate is ≤ 0. -/
theorem C2_sample_interval (r : Int) :
    (0 < r → sampleInterval r = max 1 (2 * r.toNat)) ∧
    (r ≤ 0 → sampleInterval r = 60) := by
  constructor
  · intro h
    simp only [sampleInterval]
    rw [if_neg (by omega)]
    omega
  · intro h
    simp only [sampleInterval]
    rw [if_pos h]
    rfl

/-- Witness for C2 at a positive and a non-positive reported rate. -/
theorem C2_sample_interval_witness :
    sampleInterval 30 = max 1 (2 * (30 : Int).toNat) ∧
    sampleInterval (-3) = 60 :=
  ⟨(C2_sample_interval 30).1 (by decide), (C2_sample_interval (-3)).2 (by decide)⟩

/-- C3: on a sampled frame whose classification returns at least one face
record (the first carrying a non-empty emotions dict), exactly one label is
appended to the tally stream: the first entry of the FIRST face record
attaining the maximum confidence, in the collaborator's enumeration order
(everything before it scores strictly less, nothing scores more).  The
remaining face records `fs` do not occur in the continuation, so additional
faces in the same frame contribute nothing. -/
theorem C3_first_face_top_label (d : Classifier) (interval img pos fc : Nat)
    (rest : List ReadStep) (acc : ScanOut) (f : FaceRecord)
    (fs : List FaceRecord)
    (hs : fc % interval = 0) (hd : d img = DetectOutcome.ok (f :: fs))
    (hne : f.emotions ≠ []) :
    ∃ top v pre post,
      pyMax f.emotions = some top ∧
      f.emotions = pre ++ (top, v) :: post ∧
      (∀ p ∈ pre, p.2 < v) ∧
      (∀ p ∈ f.emotions, p.2 ≤ v) ∧
      scanLoop d interval (ReadStep.frame img :: rest) pos fc acc =
        scanLoop d interval rest (pos + 1) (fc + 1)
          { acc with labels := acc.labels ++ [top],
                     analyzed := acc.analyzed ++ [(pos, img)] } := by
  obtain ⟨top, v, pre, post, htop, hsplit, hpre, hall⟩ := pyMax_firstMax hne
  exact ⟨top, v, pre, post, htop, hsplit, hpre, hall,
    scanLoop_step_face d interval img pos fc rest acc f fs top hs hd htop⟩

/-- Witness for C3: a sampled two-face frame with a tied first face. -/
theorem C3_first_face_top_label_witness :
    ∃ top v pre post,
      pyMax faceTie.emotions = some top ∧
      faceTie.emotions = pre ++ (top, v) :: post ∧
      (∀ p ∈ pre, p.2 < v) ∧
      (∀ p ∈ faceTie.emotions, p.2 ≤ v) ∧
      scanLoop clsTwoFaces 60 (ReadStep.frame 0 :: []) 0 0 ⟨[], [], [], false⟩ =
        scanLoop clsTwoFaces 60 [] (0 + 1) (0 + 1)
          { labels := ([] : List Label) ++ [top], warnings := [],
            analyzed := ([] : List (Nat × Nat)) ++ [(0, 0)], fatal := false } :=
  C3_first_face_top_label clsTwoFaces 60 0 0 0 [] ⟨[], [], [], false⟩ faceTie
    [faceOther] (by decide) rfl (by decide)

/-- C4, evaluated at the failing input of Scenario D (error on frame 60 of a
300-frame video at 30 fps): the `continue` in the except branch skips
`frame_count += 1`, so after the warning on frame 60 the next physical frame
61 is analyzed under the same counter, and the later samples land on frames
121, 181, 241 instead of 120, 180, 240.  The run itself still completes with
the remaining five labels tallied. -/
theorem C4_continue_skips_increment :
    (analyze_video_emotions (some clsErrAt60) src300).analyzed.map Prod.fst =
      [0, 60, 61, 121, 181, 241] ∧
    (analyze_video_emotions (some clsErrAt60) src300).warnings = [60] ∧
    (analyze_video_emotions (some clsErrAt60) src300).tally = [("happy", 5)] ∧
    (analyze_video_emotions (some clsErrAt60) src300).fatal = false := by
  refine ⟨by decide, by decide, by decide, by decide⟩

/-- C5: a source that cannot be opened surfaces the "Could not open video
file" error with no tally and no frame read, while a readable source whose
scan completes never carries that error — the two outcomes are
distinguishable in the visible trace. -/
theorem C5_source_unavailable (d : Classifier) (src : VideoSource) :
    (src.opened = false →
      (analyze_video_emotions (some d) src).errors =
        ["Could not open video file"] ∧
      (analyze_video_emotions (some d) src).tally = [] ∧
      (analyze_video_emotions (some d) src).analyzed = []) ∧
    (src.opened = true →
      (analyze_video_emotions (some d) src).fatal = false →
      "Could not open video file" ∉
        (analyze_video_emotions (some d) src).errors) := by
  constructor
  · intro hop
    rw [analyze_not_opened d src hop]
    exact ⟨rfl, rfl, rfl⟩
  · intro hop hft
    by_cases hsf : (scanLoop d (sampleInterval src.fps) src.steps 0 0
      ⟨[], [], [], false⟩).fatal
    · rw [analyze_fatal d src hop hsf] at hft
      simp at hft
    · rw [analyze_completed d src hop (by simpa using hsf)]
      simp

/-- Witness for C5: an unopenable source versus a short readable one. -/
theorem C5_source_unavailable_witness :
    ((analyze_video_emotions (some clsHappy) srcBad).errors =
        ["Could not open video file"] ∧
     (analyze_video_emotions (some clsHappy) srcBad).tally = [] ∧
     (analyze_video_emotions (some clsHappy) srcBad).analyzed = []) ∧
    "Could not open video file" ∉
      (analyze_video_emotions (some clsHappy) srcShort).errors :=
  ⟨(C5_source_unavailable clsHappy srcBad).1 rfl,
   (C5_source_unavailable clsHappy srcShort).2 rfl (by decide)⟩

/-- C6: a readable, fully decodable video on which the classifier never
detects a face ends in the empty-tally terminal state — no error message, the
handle released, and the caller branch reporting "no emotions detected" —
never a failure. -/
theorem C6_no_faces_empty_tally (d : Classifier) (src : VideoSource)
    (hop : src.opened = true)
    (hfr : ∀ s ∈ src.steps, ∃ i, s = ReadStep.frame i)
    (hnf : ∀ img, d img = DetectOutcome.ok []) :
    (analyze_video_emotions (some d) src).tally = [] ∧
    (analyze_video_emotions (some d) src).errors = [] ∧
    (analyze_video_emotions (some d) src).released = true ∧
    renderResult (analyze_video_emotions (some d) src).tally =
      Report.noEmotions := by
  obtain ⟨hlab, hfat⟩ := scanLoop_noFace d (sampleInterval src.fps) hnf
    src.steps 0 0 ⟨[], [], [], false⟩ hfr
  have hlab' : (scanLoop d (sampleInterval src.fps) src.steps 0 0
    ⟨[], [], [], false⟩).labels = [] := hlab
  have hfat' : (scanLoop d (sampleInterval src.fps) src.steps 0 0
    ⟨[], [], [], false⟩).fatal = false := hfat
  rw [analyze_completed d src hop hfat']
  simp [hlab', renderResult, pyMax]

/-- Witness for C6: a three-frame readable video, no face ever detected. -/
theorem C6_no_faces_empty_tally_witness :
    (analyze_video_emotions (some clsNoFace) srcShort).tally = [] ∧
    (analyze_video_emotions (some clsNoFace) srcShort).errors = [] ∧
    (analyze_video_emotions (some clsNoFace) srcShort).released = true ∧
    renderResult (analyze_video_emotions (some clsNoFace) srcShort).tally =
      Report.noEmotions :=
  C6_no_faces_empty_tally clsNoFace srcShort rfl (mkFrames_frames 3)
    (fun _ => rfl)

/-- Any tally returned by an analysis run is either empty or a
`value_counts` of the scanned label stream. -/
theorem analyze_tally_shape (d : Classifier) (src : VideoSource) :
    (analyze_video_emotions (some d) src).tally = [] ∨
    ∃ ls, (analyze_video_emotions (some d) src).tally = value_counts ls := by
  by_cases hop : src.opened = true
  · by_cases hsf : (scanLoop d (sampleInterval src.fps) src.steps 0 0
      ⟨[], [], [], false⟩).fatal
    · rw [analyze_fatal d src hop hsf]
      exact Or.inl rfl
    · rw [analyze_completed d src hop (by simpa using hsf)]
      by_cases hl : (scanLoop d (sampleInterval src.fps) src.steps 0 0
        ⟨[], [], [], false⟩).labels.isEmpty
      · exact Or.inl (by simp [hl])
      · exact Or.inr ⟨(scanLoop d (sampleInterval src.fps) src.steps 0 0
          ⟨[], [], [], false⟩).labels, by simp [hl]⟩
  · rw [analyze_not_opened d src (by simpa using hop)]
    exact Or.inl rfl

/-- C7: for every run with a non-empty tally, the dict's keys are unique and
the dominant label reported by the caller is the argmax of the per-label
counts, the tie among maximal counts broken by taking the first maximal
entry in the counting dict's own order (every earlier entry counts strictly
less, no entry counts more). -/
theorem C7_dominant_argmax (d : Classifier) (src : VideoSource)
    (h : (analyze_video_emotions (some d) src).tally ≠ []) :
    ((analyze_video_emotions (some d) src).tally.map Prod.fst).Nodup ∧
    ∃ top c pre post,
      renderResult (analyze_video_emotions (some d) src).tally =
        Report.success top ∧
      (analyze_video_emotions (some d) src).tally = pre ++ (top, c) :: post ∧
      (∀ p ∈ pre, p.2 < c) ∧
      (∀ p ∈ (analyze_video_emotions (some d) src).tally, p.2 ≤ c) := by
  constructor
  · rcases analyze_tally_shape d src with h0 | ⟨ls, hls⟩
    · exact absurd h0 h
    · rw [hls]
      exact value_counts_keys_nodup ls
  · obtain ⟨top, v, pre, post, htop, hsplit, hpre, hall⟩ := pyMax_firstMax h
    exact ⟨top, v, pre, post, by simp [renderResult, htop], hsplit, hpre, hall⟩

/-- Witness for C7 at the always-happy 300-frame run. -/
theorem C7_dominant_argmax_witness :
    ((analyze_video_emotions (some clsHappy) src300).tally.map Prod.fst).Nodup ∧
    ∃ top c pre post,
      renderResult (analyze_video_emotions (some clsHappy) src300).tally =
        Report.success top ∧
      (analyze_video_emotions (some clsHappy) src300).tally =
        pre ++ (top, c) :: post ∧
      (∀ p ∈ pre, p.2 < c) ∧
      (∀ p ∈ (analyze_video_emotions (some clsHappy) src300).tally,
        p.2 ≤ c) :=
  C7_dominant_argmax clsHappy src300 (by decide)

/-- C8: for every completed run (no fatal error) of a classifier whose
detected first faces always carry a non-empty emotions dict, the counts of
the tally sum to exactly the number of classified frames whose outcome
yielded at least one face record. -/
theorem C8_tally_sum (d : Classifier) (src : VideoSource)
    (hwf : ∀ img f fs, d img = DetectOutcome.ok (f :: fs) → f.emotions ≠ [])
    (hft : (analyze_video_emotions (some d) src).fatal = false) :
    ((analyze_video_emotions (some d) src).tally.map Prod.snd).sum =
      ((analyze_video_emotions (some d) src).analyzed.filter
        (fun pi => faceYield (d pi.2))).length := by
  by_cases hop : src.opened = true
  · by_cases hsf : (scanLoop d (sampleInterval src.fps) src.steps 0 0
      ⟨[], [], [], false⟩).fatal
    · rw [analyze_fatal d src hop hsf] at hft
      simp at hft
    · have hcount := scanLoop_count d (sampleInterval src.fps) hwf
        src.steps 0 0 ⟨[], [], [], false⟩
      simp only [List.filter_nil, List.length_nil, Nat.add_zero] at hcount
      rw [analyze_completed d src hop (by simpa using hsf)]
      rw [← hcount]
      by_cases hl : (scanLoop d (sampleInterval src.fps) src.steps 0 0
        ⟨[], [], [], false⟩).labels.isEmpty
      · have hnil := List.isEmpty_iff.mp hl
        simp [hl, hnil]
      · simp only [hl, Bool.false_eq_true, if_false]
        exact value_counts_sum _
  · rw [analyze_not_opened d src (by simpa using hop)]
    simp

/-- Witness for C8 at the always-happy 300-frame run. -/
theorem C8_tally_sum_witness :
    ((analyze_video_emotions (some clsHappy) src300).tally.map Prod.snd).sum =
      ((analyze_video_emotions (some clsHappy) src300).analyzed.filter
        (fun pi => faceYield (clsHappy pi.2))).length :=
  C8_tally_sum clsHappy src300
    (fun img f fs hh => (clsHappy_neverRaises img).2 f fs hh) (by decide)

/-- Counterexample to C9 as stated: on a run whose source opens but whose
second read raises an unexpected exception, the function returns through the
outer handler with `cap.release()` never executed — the handle is NOT
released on this exit path. -/
theorem C9_fatal_leaves_handle_open :
    srcFatal.opened = true ∧
    (analyze_video_emotions (some clsHappy) srcFatal).fatal = true ∧
    (analyze_video_emotions (some clsHappy) srcFatal).released = false := by
  refine ⟨rfl, by decide, by decide⟩

/-- C9 amended: the handle is released exactly on the runs that open the
source and complete the scan; when an unexpected fatal condition escapes the
scan loop the run returns with the handle unreleased (and when the source
never opens there is no open handle to release). -/
theorem C9_release_on_completion (d : Classifier) (src : VideoSource) :
    (src.opened = true →
      (analyze_video_emotions (some d) src).fatal = false →
      (analyze_video_emotions (some d) src).released = true) ∧
    ((analyze_video_emotions (some d) src).fatal = true →
      (analyze_video_emotions (some d) src).released = false) := by
  by_cases hop : src.opened = true
  · by_cases hsf : (scanLoop d (sampleInterval src.fps) src.steps 0 0
      ⟨[], [], [], false⟩).fatal
    · rw [analyze_fatal d src hop hsf]
      exact ⟨fun _ h => by simp at h, fun _ => rfl⟩
    · rw [analyze_completed d src hop (by simpa using hsf)]
      exact ⟨fun _ _ => rfl, fun h => by simp at h⟩
  · rw [analyze_not_opened d src (by simpa using hop)]
    exact ⟨fun h => absurd h hop, fun h => by simp at h⟩

/-- Witness for the amended C9: released on a completed run, not released on
a fatal run. -/
theorem C9_release_on_completion_witness :
    (analyze_video_emotions (some clsHappy) srcShort).released = true ∧
    (analyze_video_emotions (some clsHappy) srcFatal).released = false :=
  ⟨(C9_release_on_completion clsHappy srcShort).1 rfl (by decide),
   (C9_release_on_completion clsHappy srcFatal).2 (by decide)⟩

/-- C10: a `none` detector makes the function return the empty dict at once
— no capture constructed, no frame read, no message emitted — and that
returned dict is identical to the one produced by a readable video in which
no face was ever detected, so the two cases are indistinguishable at this
function's interface (the Python function returns only the dict). -/
theorem C10_null_detector (src : VideoSource) :
    analyze_video_emotions none src =
      { tally := [], errors := [], warnings := [], analyzed := [],
        released := false, openAttempted := false, fatal := false } ∧
    (analyze_video_emotions none src).tally =
      (analyze_video_emotions (some clsNoFace) srcShort).tally := by
  refine ⟨rfl, ?_⟩
  have h : (analyze_video_emotions (some clsNoFace) srcShort).tally = [] := by
    decide
  exact h.symm
